import Mathlib

/-
Verification of `scripts/scil_compute_memsmt_fodf.py`.

The Python functions `single_tensor_btensor`, `multi_shell_fiber_response`
and the response-file validation fragment of `main` are shallowly embedded
below.  NumPy arrays of reals become `List ℝ` (or lists of rows); machine
floats are modelled by real numbers; fallible Python operations (indexing,
unbound names, explicit `raise ValueError`) return `Except PyErr`.
-/

noncomputable section

namespace Memsmt

/-- Python runtime errors that the embedded code can raise. -/
inductive PyErr where
  | valueError (msg : String)
  | indexError
  | nameError (missing : String)
deriving DecidableEq

/-- Message of the `ValueError` raised by `single_tensor_btensor`. -/
def bdeltaMsg : String := "The value of b_delta must be between -0.5 and 1."

/-- Name whose lookup fails in the no-b0 branch (`warnings` is never
imported by the script, so `warnings.warn` raises `NameError`). -/
def warningsName : String := "warnings"

/-- Python sequence indexing `l[i]`: raises `IndexError` out of range. -/
def pyGet {α : Type} (l : List α) (i : ℕ) : Except PyErr α :=
  match l.get? i with
  | some x => .ok x
  | none => .error .indexError

/-- A 3-vector, modelling one row of an `(N, 3)` NumPy array. -/
abbrev V3 : Type := ℝ × ℝ × ℝ

/-- Euclidean norm of a 3-vector. -/
def vnorm (g : V3) : ℝ := Real.sqrt (g.1 ^ 2 + g.2.1 ^ 2 + g.2.2 ^ 2)

/-- dipy `GradientTable`: the b-vector list and the b-value list. -/
structure GradientTable where
  bvecs : List V3
  bvals : List ℝ

/-- dipy `GradientTable(gradients)`: `bvals` are the gradient norms and
`bvecs` the normalized gradients (a zero gradient is kept as is, which is
what dividing by a denominator patched from `0` to `1` does in dipy). -/
def GradientTable.ofGradients (grads : List V3) : GradientTable where
  bvecs := grads.map fun g =>
    if vnorm g = 0 then g else (g.1 / vnorm g, g.2.1 / vnorm g, g.2.2 / vnorm g)
  bvals := grads.map vnorm

/-- Source line `D_iso = np.sum(evals) / 3.` of `single_tensor_btensor`. -/
def d_iso (e : V3) : ℝ := (e.1 + e.2.1 + e.2.2) / 3

/-- Source line `evals[np.argmax(abs(evals - D_iso))]`: `np.argmax` returns the first
index attaining the maximum. -/
def d_para (e : V3) : ℝ :=
  if |e.1 - d_iso e| ≥ |e.2.1 - d_iso e| ∧ |e.1 - d_iso e| ≥ |e.2.2 - d_iso e| then e.1
  else if |e.2.1 - d_iso e| ≥ |e.2.2 - d_iso e| then e.2.1
  else e.2.2

/-- Source line `evals[np.argmin(abs(evals - D_iso))]`: `np.argmin` returns the first
index attaining the minimum. -/
def d_perp (e : V3) : ℝ :=
  if |e.1 - d_iso e| ≤ |e.2.1 - d_iso e| ∧ |e.1 - d_iso e| ≤ |e.2.2 - d_iso e| then e.1
  else if |e.2.1 - d_iso e| ≤ |e.2.2 - d_iso e| then e.2.1
  else e.2.2

/-- Source line `D_delta = (D_para - D_perp) / (3 * D_iso)`. -/
def d_delta (e : V3) : ℝ := (d_para e - d_perp e) / (3 * d_iso e)

/-- Source line `theta = np.arctan2(np.sqrt(g[0]**2 + g[1]**2), g[2])`, written via
`Complex.arg` (`arctan2 y x = arg (x + y*I)`). -/
def polarTheta (g : V3) : ℝ :=
  Complex.arg ⟨g.2.2, Real.sqrt (g.1 ^ 2 + g.2.1 ^ 2)⟩

/-- Source line `P_2 = (3 * np.cos(theta) ** 2 - 1) / 2.` -/
def legP2 (theta : ℝ) : ℝ := (3 * Real.cos theta ^ 2 - 1) / 2

/-- Source line `S[i] = S0 * np.exp(-b * D_iso * (1 + 2 * b_delta * D_delta * P_2))`. -/
def tensorSignal (e : V3) (b_delta s0 : ℝ) (g : V3) (b : ℝ) : ℝ :=
  s0 * Real.exp (-b * d_iso e * (1 + 2 * b_delta * d_delta e * legP2 (polarTheta g)))

/-- The `for (i, g) in enumerate(gradients)` loop of `single_tensor_btensor`:
each gradient is paired with `gtab.bvals[i]` (Python indexing, so a missing
b-value is an `IndexError`). -/
def stbSignals (e : V3) (b_delta s0 : ℝ) (bvals : List ℝ) :
    List V3 → ℕ → Except PyErr (List ℝ)
  | [], _ => .ok []
  | g :: gs, i => do
      let b ← pyGet bvals i
      let rest ← stbSignals e b_delta s0 bvals gs (i + 1)
      pure (tensorSignal e b_delta s0 g b :: rest)

/-- The function `single_tensor_btensor(gtab, evals, b_delta, S0)` (lines 128-150 of the
script).  The `(N, 3)` b-vector array is modelled flat, so the final
`reshape(out_shape)` is the identity. -/
def single_tensor_btensor (gtab : GradientTable) (evals : V3)
    (b_delta : ℝ) (s0 : ℝ := 1) : Except PyErr (List ℝ) :=
  if b_delta > 1 ∨ b_delta < -(1/2) then
    .error (.valueError bdeltaMsg)
  else
    stbSignals evals b_delta s0 gtab.bvals gtab.bvecs 0

/-- Legendre polynomials via the Bonnet recurrence, used to express the
`m = 0` spherical-harmonic values that dipy's basis evaluator returns. -/
def legendreP : ℕ → ℝ → ℝ
  | 0, _ => 1
  | 1, x => x
  | n + 2, x =>
      ((2 * (n : ℝ) + 3) * x * legendreP (n + 1) x - ((n : ℝ) + 1) * legendreP n x) /
        ((n : ℝ) + 2)

/-- Modelled from the spec: dipy's `shm.real_sh_descoteaux_from_index(0, n,
theta, phi)` (external library), the real spherical harmonic of order `m = 0`
and degree `n`: `sqrt((2n+1)/(4*pi)) * P_n(cos theta)`. -/
def shDesc (n : ℕ) (theta : ℝ) : ℝ :=
  Real.sqrt ((2 * (n : ℝ) + 1) / (4 * Real.pi)) * legendreP n (Real.cos theta)

/-- The value `A = shm.real_sh_descoteaux_from_index(0, 0, 0, 0)`, the harmonic DC
value used to scale the isotropic response coefficients. -/
def shA : ℝ := shDesc 0 0

/-- dipy `Sphere.theta` of a vertex: the polar angle `arccos (z / ‖v‖)`. -/
def sphTheta (v : V3) : ℝ := Real.arccos (v.2.2 / vnorm v)

/-- Modelled from the spec: `np.linalg.lstsq(B, y)[0]` (external library)
where `B` is the even-degree `m = 0` harmonic basis evaluated at the sphere
vertices (`B = shm.real_sh_descoteaux_from_index(m, n, theta[:, None],
phi[:, None])` with `n = np.arange(0, sh_order + 1, 2)`), i.e. the
least-squares coefficients, written through the normal equations. -/
def lstsqCoeffs (sh_order : ℕ) (verts : List V3) (y : List ℝ) : List ℝ :=
  let B : Matrix (Fin verts.length) (Fin (sh_order / 2 + 1)) ℝ :=
    Matrix.of fun i j => shDesc (2 * (j : ℕ)) (sphTheta (verts.get i))
  let sol := ((Matrix.transpose B * B)⁻¹ * Matrix.transpose B).mulVec fun i => y.getD i 0
  (List.finRange (sh_order / 2 + 1)).map sol

/-- One row of a loaded fiber-response array: three eigenvalues and S0
(`rf[i, :3]` and `rf[i, 3]` in the script). -/
structure RFRow where
  ev1 : ℝ
  ev2 : ℝ
  ev3 : ℝ
  s0 : ℝ

/-- The slice `rf[i, :3]` as an eigenvalue triple. -/
def RFRow.evals (r : RFRow) : V3 := (r.ev1, r.ev2, r.ev3)

/-- Source expression `big_sphere.vertices * bvalue`. -/
def scaleSphere (sphere : List V3) (b : ℝ) : List V3 :=
  sphere.map fun v => (b * v.1, b * v.2.1, b * v.2.2)

/-- The body of `for i, bvalue in enumerate(bvals[1:])` in
`multi_shell_fiber_response` (and of the loop in its `else` branch): builds
the response row `[csf, gm, wm...]` for loop index `i` and b-value `bvalue`,
performing the Python reads in source order (`wm_rf[i]`, `b_deltas[i]`, the
`b_delta` range check inside `single_tensor_btensor`, then `gm_rf[i]` and
`csf_rf[i]`). -/
def shellRow (sh_order : ℕ) (sphere : List V3)
    (wm_rf gm_rf csf_rf : List RFRow) (bds : List ℝ) (i : ℕ) (bvalue : ℝ) :
    Except PyErr (List ℝ) := do
  let wmi ← pyGet wm_rf i
  let bd ← pyGet bds i
  let sig ← single_tensor_btensor
      (GradientTable.ofGradients (scaleSphere sphere bvalue)) wmi.evals bd wmi.s0
  let gmi ← pyGet gm_rf i
  let csfi ← pyGet csf_rf i
  pure ([csfi.s0 * Real.exp (-bvalue * csfi.ev1) / shA,
         gmi.s0 * Real.exp (-bvalue * gmi.ev1) / shA] ++
        lstsqCoeffs sh_order sphere sig)

/-- The shell loop itself, iterating `shellRow` with `i = 0, 1, ...`. -/
def shellRows (sh_order : ℕ) (sphere : List V3)
    (wm_rf gm_rf csf_rf : List RFRow) (bds : List ℝ) :
    List ℝ → ℕ → Except PyErr (List (List ℝ))
  | [], _ => .ok []
  | b :: bs, i => do
      let row ← shellRow sh_order sphere wm_rf gm_rf csf_rf bds i b
      let rest ← shellRows sh_order sphere wm_rf gm_rf csf_rf bds bs (i + 1)
      pure (row :: rest)

/-- dipy `MultiShellResponse(response, sh_order, bvals, S0=S0)`, holding the
per-shell coefficient rows `[csf, gm, wm...]`. -/
structure MultiShellResponse where
  response : List (List ℝ)
  sh_order : ℕ
  bvals : List ℝ
  S0 : List ℝ

/-- The function `multi_shell_fiber_response` (lines 153-204 of the script).  `sphere` is
the vertex list of `sphere.subdivide()` (`default_sphere` subdivided when the
argument is omitted); rows of the response arrays are `RFRow`s.  The `else`
branch executes `warnings.warn(...)`, but the script never imports
`warnings`, so Python raises `NameError` there. -/
def multi_shell_fiber_response (sh_order : ℕ) (bvals : List ℝ)
    (wm_rf gm_rf csf_rf : List RFRow) (b_deltas : Option (List ℝ))
    (sphere : List V3) (tol : ℝ) : Except PyErr MultiShellResponse := do
  let bds := b_deltas.getD (List.replicate (bvals.length - 1) 1)
  let b0 ← pyGet bvals 0
  if b0 < tol then
    let wm0 ← pyGet wm_rf 0
    let sig0 ← single_tensor_btensor
        (GradientTable.ofGradients (scaleSphere sphere 0)) wm0.evals 1 wm0.s0
    let wmRow0 := lstsqCoeffs sh_order sphere sig0
    let gm0 ← pyGet gm_rf 0
    let csf0 ← pyGet csf_rf 0
    let rest ← shellRows sh_order sphere wm_rf gm_rf csf_rf bds (bvals.drop 1) 0
    pure { response := ([csf0.s0 / shA, gm0.s0 / shA] ++ wmRow0) :: rest,
           sh_order := sh_order, bvals := bvals,
           S0 := [csf0.s0, gm0.s0, wm0.s0] }
  else
    .error (.nameError warningsName)

/-- A loaded fiber-response text file (`np.loadtxt` result): a single row
loads as a 1-D array, several rows as a 2-D array. -/
inductive FrfArr where
  | one (v : List ℝ)
  | two (rows : List (List ℝ))

/-- NumPy `.shape` of a loaded response array (`loadtxt` 2-D results are
rectangular, so the column count is the first row's length). -/
def FrfArr.shape : FrfArr → List ℕ
  | .one v => [v.length]
  | .two rows => [rows.length, (rows.headD []).length]

/-- Source line `if len(frf.shape) == 1: frf = np.reshape(frf, (1,) + frf.shape)`:
exactly the 1-D case has a length-1 shape. -/
def frfReshape : FrfArr → FrfArr
  | .one v => .two [v]
  | .two rows => .two rows

/-- Error message of the WM response-format check in `main`. -/
def wmMsg : String := "WM frf file did not contain 4 elements. Invalid or deprecated FRF format"

/-- Error message of the GM response-format check in `main`. -/
def gmMsg : String := "GM frf file did not contain 4 elements. Invalid or deprecated FRF format"

/-- Error message of the CSF response-format check in `main`. -/
def csfMsg : String := "CSF frf file did not contain 4 elements. Invalid or deprecated FRF format"

/-- Lines 273-288 of `main`: reshape each 1-D response array to `(1, n)`,
then check `frf.shape[1] == 4` for WM, GM and CSF in that order. -/
def validate_frfs (wm gm csf : FrfArr) :
    Except PyErr (FrfArr × FrfArr × FrfArr) := do
  let w := frfReshape wm
  let g := frfReshape gm
  let c := frfReshape csf
  let wdim ← pyGet w.shape 1
  if wdim ≠ 4 then throw (.valueError wmMsg)
  else do
    let gdim ← pyGet g.shape 1
    if gdim ≠ 4 then throw (.valueError gmMsg)
    else do
      let cdim ← pyGet c.shape 1
      if cdim ≠ 4 then throw (.valueError csfMsg)
      else pure (w, g, c)

/-- The response-validation stage of `main` followed by an arbitrary
continuation `fit` standing for the call to `multi_shell_fiber_response` and
everything after it: the continuation runs only if validation passes. -/
def frfStage {α : Type} (wm gm csf : FrfArr)
    (fit : FrfArr × FrfArr × FrfArr → Except PyErr α) : Except PyErr α := do
  let arrs ← validate_frfs wm gm csf
  fit arrs

/-- A NumPy array value living in the heap: a 1-D vector or a 2-D matrix. -/
inductive NpVal where
  | vec (v : List ℝ)
  | mat (rows : List (List ℝ))

/-- A heap of NumPy arrays: array identities are allocation order, `next` is
the first unused identity. -/
structure Heap where
  mem : ℕ → Option NpVal
  next : ℕ

/-- Allocate a fresh array (used for `np.array(..., copy=True)` and
`np.empty`), returning the new heap and the new array's identity. -/
def Heap.alloc (σ : Heap) (v : NpVal) : Heap × ℕ :=
  (⟨Function.update σ.mem σ.next (some v), σ.next + 1⟩, σ.next)

/-- Read a 1-D array (any other content reads as the empty vector; the
embedded code only reads identities it stored vectors at). -/
def Heap.readVec (σ : Heap) (a : ℕ) : List ℝ :=
  match σ.mem a with
  | some (.vec v) => v
  | _ => []

/-- Read a 2-D array, as `readVec`. -/
def Heap.readMat (σ : Heap) (a : ℕ) : List (List ℝ) :=
  match σ.mem a with
  | some (.mat rows) => rows
  | _ => []

/-- In-place update of row `i` of the 2-D array `a` by `f`. -/
def Heap.modifyRow (σ : Heap) (a : ℕ) (i : ℕ) (f : List ℝ → List ℝ) : Heap :=
  match σ.mem a with
  | some (.mat rows) =>
      ⟨Function.update σ.mem a (some (.mat (rows.set i (f (rows.getD i []))))), σ.next⟩
  | _ => σ

/-- Slice write `arr[i, k:] = vals`: overwrite the row's entries from column `k` on. -/
def Heap.writeTailOfRow (σ : Heap) (a i k : ℕ) (vals : List ℝ) : Heap :=
  σ.modifyRow a i fun r => r.take k ++ vals ++ r.drop (k + vals.length)

/-- Cell write `arr[i, j] = x`. -/
def Heap.writeCell (σ : Heap) (a i j : ℕ) (x : ℝ) : Heap :=
  σ.modifyRow a i fun r => r.set j x

/-- Interpret a `(n, 4)` response matrix as `RFRow`s. -/
def toRFRows (rows : List (List ℝ)) : List RFRow :=
  rows.map fun r => ⟨r.getD 0 0, r.getD 1 0, r.getD 2 0, r.getD 3 0⟩

/-- The shell loop of `multi_shell_fiber_response` in heap-passing style:
per iteration it writes `response[i+1, 2:]`, `response[i+1, 1]` and
`response[i+1, 0]` (in source order, interleaved with the reads), and every
write targets the `respId` array.  On an exception the heap reached so far is
returned together with the error. -/
def msfrHeapLoop (sh_order : ℕ) (sphere : List V3)
    (wm gm csf : List RFRow) (bds : List ℝ) (respId : ℕ) :
    List ℝ → ℕ → Heap → Heap × Option PyErr
  | [], _, σ => (σ, none)
  | b :: bs, i, σ =>
      match pyGet wm i with
      | .error e => (σ, some e)
      | .ok wmi =>
        match pyGet bds i with
        | .error e => (σ, some e)
        | .ok bd =>
          match single_tensor_btensor
              (GradientTable.ofGradients (scaleSphere sphere b)) wmi.evals bd wmi.s0 with
          | .error e => (σ, some e)
          | .ok sig =>
            let σ1 := σ.writeTailOfRow respId (i + 1) 2 (lstsqCoeffs sh_order sphere sig)
            match pyGet gm i with
            | .error e => (σ1, some e)
            | .ok gmi =>
              let σ2 := σ1.writeCell respId (i + 1) 1
                  (gmi.s0 * Real.exp (-b * gmi.ev1) / shA)
              match pyGet csf i with
              | .error e => (σ2, some e)
              | .ok csfi =>
                msfrHeapLoop sh_order sphere wm gm csf bds respId bs (i + 1)
                  (σ2.writeCell respId (i + 1) 0
                    (csfi.s0 * Real.exp (-b * csfi.ev1) / shA))

/-- Package the shell loop's outcome: an exception propagates, success
returns the given result triple alongside the final heap. -/
def wrapLoop (p : Heap × Option PyErr) (res : ℕ × ℕ × List ℝ) :
    Heap × Except PyErr (ℕ × ℕ × List ℝ) :=
  match p with
  | (σ6, some e) => (σ6, .error e)
  | (σ6, none) => (σ6, .ok res)

lemma wrapLoop_fst (p : Heap × Option PyErr) (res : ℕ × ℕ × List ℝ) :
    (wrapLoop p res).1 = p.1 := by
  rcases p with ⟨σ6, _ | e⟩ <;> rfl

lemma wrapLoop_ok_inv (p : Heap × Option PyErr) (res v : ℕ × ℕ × List ℝ)
    (h : (wrapLoop p res).2 = .ok v) : v = res := by
  rcases p with ⟨σ6, _ | e⟩
  · injection h with h'
    exact h'.symm
  · exact Except.noConfusion h

/-- The part of the heap-level `multi_shell_fiber_response` that follows the
two allocations (the `bvals` copy and the empty `response` array): the
branch on `bvals[0] < tol`, the b0 row writes and the shell loop.  `respId`
is the `response` array, `bvalsLocal` the `bvals` copy. -/
def msfrHeapMain (sh_order : ℕ) (sphere : List V3) (tol : ℝ)
    (bvals : List ℝ) (wm gm csf : List RFRow) (bds : List ℝ)
    (respId bvalsLocal : ℕ) (σ2 : Heap) :
    Heap × Except PyErr (ℕ × ℕ × List ℝ) :=
  match pyGet bvals 0 with
  | .error e => (σ2, .error e)
  | .ok b0 =>
    if b0 < tol then
      match pyGet wm 0 with
      | .error e => (σ2, .error e)
      | .ok wm0 =>
        match single_tensor_btensor
            (GradientTable.ofGradients (scaleSphere sphere 0)) wm0.evals 1 wm0.s0 with
        | .error e => (σ2, .error e)
        | .ok sig0 =>
          let σ3 := σ2.writeTailOfRow respId 0 2 (lstsqCoeffs sh_order sphere sig0)
          match pyGet gm 0 with
          | .error e => (σ3, .error e)
          | .ok gm0 =>
            let σ4 := σ3.writeCell respId 0 1 (gm0.s0 / shA)
            match pyGet csf 0 with
            | .error e => (σ4, .error e)
            | .ok csf0 =>
              let σ5 := σ4.writeCell respId 0 0 (csf0.s0 / shA)
              wrapLoop (msfrHeapLoop sh_order sphere wm gm csf bds respId
                  (bvals.drop 1) 0 σ5)
                (respId, bvalsLocal, [csf0.s0, gm0.s0, wm0.s0])
    else (σ2, .error (.nameError warningsName))

/-- The function `multi_shell_fiber_response` in heap-passing style, exposing its storage
behaviour: the argument arrays are the identities `bvalsId`, `wmId`, `gmId`,
`csfId` and (when given) `bdsId`; the function first copies `bvals`
(`np.array(bvals, copy=True)`) into a fresh array, allocates the fresh
`response` array (`np.empty`), and then only ever writes rows of `response`.
On success it returns the identities of the `response` array and of the
`bvals` copy (the arrays dipy's `MultiShellResponse` is built from) and the
`S0` list.  The heap after the call is returned in both the success and the
error case. -/
def msfrHeap (sh_order : ℕ) (sphere : List V3) (tol : ℝ)
    (bvalsId wmId gmId csfId : ℕ) (bdsId : Option ℕ) (σ0 : Heap) :
    Heap × Except PyErr (ℕ × ℕ × List ℝ) :=
  let p1 := σ0.alloc (.vec (σ0.readVec bvalsId))
  let σ1 := p1.1
  let bvalsLocal := p1.2
  let bvals := σ1.readVec bvalsLocal
  let wm := toRFRows (σ1.readMat wmId)
  let gm := toRFRows (σ1.readMat gmId)
  let csf := toRFRows (σ1.readMat csfId)
  let bds := match bdsId with
    | some j => σ1.readVec j
    | none => List.replicate (bvals.length - 1) 1
  let p2 := σ1.alloc (.mat (List.replicate bvals.length
      (List.replicate (sh_order / 2 + 1 + 2) (0 : ℝ))))
  msfrHeapMain sh_order sphere tol bvals wm gm csf bds p2.2 bvalsLocal p2.1

@[simp] lemma ok_bind {α β : Type} (a : α) (f : α → Except PyErr β) :
    (Except.ok a >>= f) = f a := rfl

@[simp] lemma error_bind {α β : Type} (er : PyErr) (f : α → Except PyErr β) :
    ((Except.error er : Except PyErr α) >>= f) = .error er := rfl

@[simp] lemma map_ok {α β : Type} (f : α → β) (a : α) :
    (f <$> (Except.ok a : Except PyErr α)) = .ok (f a) := rfl

@[simp] lemma map_error {α β : Type} (f : α → β) (er : PyErr) :
    (f <$> (Except.error er : Except PyErr α)) = .error er := rfl

@[simp] lemma pure_eq_ok {α : Type} (a : α) : (pure a : Except PyErr α) = .ok a := rfl

@[simp] lemma throw_eq_error {α : Type} (er : PyErr) :
    (throw er : Except PyErr α) = .error er := rfl

@[simp] lemma pyGet_ok_iff {α : Type} {l : List α} {i : ℕ} {x : α} :
    pyGet l i = .ok x ↔ l.get? i = some x := by
  unfold pyGet
  rcases h : l.get? i with _ | y <;> simp

@[simp] lemma pyGet_none {α : Type} {l : List α} {i : ℕ} (h : l.get? i = none) :
    pyGet l i = .error .indexError := by
  unfold pyGet
  rw [h]

lemma d_para_cases (e : V3) : d_para e = e.1 ∨ d_para e = e.2.1 ∨ d_para e = e.2.2 := by
  unfold d_para; split_ifs <;> tauto

lemma d_perp_cases (e : V3) : d_perp e = e.1 ∨ d_perp e = e.2.1 ∨ d_perp e = e.2.2 := by
  unfold d_perp; split_ifs <;> tauto

lemma d_para_max (e : V3) :
    |e.1 - d_iso e| ≤ |d_para e - d_iso e| ∧
    |e.2.1 - d_iso e| ≤ |d_para e - d_iso e| ∧
    |e.2.2 - d_iso e| ≤ |d_para e - d_iso e| := by
  unfold d_para
  split_ifs with h1 h2
  · exact ⟨le_rfl, h1.1, h1.2⟩
  · rcases not_and_or.mp h1 with h | h <;> push_neg at h <;>
      exact ⟨by linarith, le_rfl, h2⟩
  · push_neg at h2
    rcases not_and_or.mp h1 with h | h <;> push_neg at h <;>
      exact ⟨by linarith, by linarith, le_rfl⟩

lemma d_perp_min (e : V3) :
    |d_perp e - d_iso e| ≤ |e.1 - d_iso e| ∧
    |d_perp e - d_iso e| ≤ |e.2.1 - d_iso e| ∧
    |d_perp e - d_iso e| ≤ |e.2.2 - d_iso e| := by
  unfold d_perp
  split_ifs with h1 h2
  · exact ⟨le_rfl, h1.1, h1.2⟩
  · rcases not_and_or.mp h1 with h | h <;> push_neg at h <;>
      exact ⟨by linarith, le_rfl, h2⟩
  · push_neg at h2
    rcases not_and_or.mp h1 with h | h <;> push_neg at h <;>
      exact ⟨by linarith, by linarith, le_rfl⟩

lemma cos_polarTheta (g : V3) (hg : g ≠ (0, 0, 0)) :
    Real.cos (polarTheta g) = g.2.2 / Real.sqrt (g.1 ^ 2 + g.2.1 ^ 2 + g.2.2 ^ 2) := by
  have hs : (0 : ℝ) ≤ g.1 ^ 2 + g.2.1 ^ 2 := by positivity
  have hz : (⟨g.2.2, Real.sqrt (g.1 ^ 2 + g.2.1 ^ 2)⟩ : ℂ) ≠ 0 := by
    intro h
    rw [Complex.ext_iff] at h
    obtain ⟨h1, h2⟩ := h
    simp only [Complex.zero_re, Complex.zero_im] at h1 h2
    have := Real.sqrt_eq_zero hs |>.mp h2
    have hx : g.1 = 0 := by nlinarith [sq_nonneg g.1, sq_nonneg g.2.1]
    have hy : g.2.1 = 0 := by nlinarith [sq_nonneg g.1, sq_nonneg g.2.1]
    exact hg (by ext <;> simp [hx, hy, h1])
  rw [polarTheta, Complex.cos_arg hz]
  simp only [Complex.abs_apply, Complex.normSq_mk]
  congr 1
  rw [Real.mul_self_sqrt hs]
  congr 1
  ring

lemma stbSignals_eq_map (e : V3) (bd s0 : ℝ) (bvals : List ℝ) :
    ∀ (gs : List V3) (i : ℕ), i + gs.length ≤ bvals.length →
      stbSignals e bd s0 bvals gs i =
        .ok ((gs.zip (bvals.drop i)).map fun p => tensorSignal e bd s0 p.1 p.2)
  | [], i, _ => by simp [stbSignals]
  | g :: gs, i, h => by
      have hi : i < bvals.length := by simp only [List.length_cons] at h; omega
      have hb : pyGet bvals i = .ok (bvals.get ⟨i, hi⟩) :=
        pyGet_ok_iff.mpr (List.get?_eq_get hi)
      have ih := stbSignals_eq_map e bd s0 bvals gs (i + 1)
        (by simp only [List.length_cons] at h; omega)
      have hdrop : bvals.drop i = bvals.get ⟨i, hi⟩ :: bvals.drop (i + 1) := by
        rw [List.drop_eq_getElem_cons hi]; simp
      rw [stbSignals, hb, ok_bind, ih, hdrop]
      rfl

/-- C1 — `single_tensor_btensor` computes: `D_iso` the mean of the three
eigenvalues, `D_para` an eigenvalue of maximal and `D_perp` an eigenvalue of
minimal absolute deviation from `D_iso`,
`D_delta = (D_para - D_perp) / (3 * D_iso)`, and for each gradient direction
`g` paired with b-value `b` the signal
`S0 * exp(-b * D_iso * (1 + 2 * b_delta * D_delta * P_2))` with
`P_2 = (3 * cos(theta)^2 - 1) / 2`, `theta` being the polar angle of `g`
from the z-axis (the last conjunct identifies `cos theta` as
`g_z / ‖g‖`). -/
theorem single_tensor_btensor_spec (gtab : GradientTable) (e : V3) (bd s0 : ℝ)
    (h1 : -(1/2) ≤ bd) (h2 : bd ≤ 1)
    (hlen : gtab.bvecs.length ≤ gtab.bvals.length) :
    ∃ Diso Dpara Dperp : ℝ,
      Diso = (e.1 + e.2.1 + e.2.2) / 3 ∧
      (Dpara = e.1 ∨ Dpara = e.2.1 ∨ Dpara = e.2.2) ∧
      |e.1 - Diso| ≤ |Dpara - Diso| ∧ |e.2.1 - Diso| ≤ |Dpara - Diso| ∧
        |e.2.2 - Diso| ≤ |Dpara - Diso| ∧
      (Dperp = e.1 ∨ Dperp = e.2.1 ∨ Dperp = e.2.2) ∧
      |Dperp - Diso| ≤ |e.1 - Diso| ∧ |Dperp - Diso| ≤ |e.2.1 - Diso| ∧
        |Dperp - Diso| ≤ |e.2.2 - Diso| ∧
      single_tensor_btensor gtab e bd s0 =
        .ok ((gtab.bvecs.zip gtab.bvals).map fun p =>
          s0 * Real.exp (-p.2 * Diso *
            (1 + 2 * bd * ((Dpara - Dperp) / (3 * Diso)) *
              ((3 * Real.cos (polarTheta p.1) ^ 2 - 1) / 2)))) ∧
      ∀ g : V3, g ≠ (0, 0, 0) →
        Real.cos (polarTheta g) = g.2.2 / Real.sqrt (g.1 ^ 2 + g.2.1 ^ 2 + g.2.2 ^ 2) := by
  refine ⟨d_iso e, d_para e, d_perp e, rfl, d_para_cases e,
    (d_para_max e).1, (d_para_max e).2.1, (d_para_max e).2.2, d_perp_cases e,
    (d_perp_min e).1, (d_perp_min e).2.1, (d_perp_min e).2.2, ?_, cos_polarTheta⟩
  have hguard : ¬(bd > 1 ∨ bd < -(1/2)) := by push_neg; exact ⟨h2, h1⟩
  rw [single_tensor_btensor, if_neg hguard,
    stbSignals_eq_map e bd s0 gtab.bvals gtab.bvecs 0 (by omega)]
  simp only [List.drop_zero]
  rfl

/-- Closed instance of `single_tensor_btensor_spec` at a concrete input. -/
theorem single_tensor_btensor_spec_witness :
    ∃ Diso Dpara Dperp : ℝ,
      Diso = ((1 : ℝ) + 2 + 4) / 3 ∧
      (Dpara = (1 : ℝ) ∨ Dpara = 2 ∨ Dpara = 4) ∧
      |(1 : ℝ) - Diso| ≤ |Dpara - Diso| ∧ |(2 : ℝ) - Diso| ≤ |Dpara - Diso| ∧
        |(4 : ℝ) - Diso| ≤ |Dpara - Diso| ∧
      (Dperp = (1 : ℝ) ∨ Dperp = 2 ∨ Dperp = 4) ∧
      |Dperp - Diso| ≤ |(1 : ℝ) - Diso| ∧ |Dperp - Diso| ≤ |(2 : ℝ) - Diso| ∧
        |Dperp - Diso| ≤ |(4 : ℝ) - Diso| ∧
      single_tensor_btensor ⟨[(0, 0, 1)], [1]⟩ (1, 2, 4) 1 1 =
        .ok ((([((0 : ℝ), (0 : ℝ), (1 : ℝ))].zip [(1 : ℝ)]).map fun p =>
          1 * Real.exp (-p.2 * Diso *
            (1 + 2 * 1 * ((Dpara - Dperp) / (3 * Diso)) *
              ((3 * Real.cos (polarTheta p.1) ^ 2 - 1) / 2))))) ∧
      ∀ g : V3, g ≠ (0, 0, 0) →
        Real.cos (polarTheta g) = g.2.2 / Real.sqrt (g.1 ^ 2 + g.2.1 ^ 2 + g.2.2 ^ 2) :=
  single_tensor_btensor_spec ⟨[(0, 0, 1)], [1]⟩ (1, 2, 4) 1 1 (by norm_num) (by norm_num)
    (by simp)

lemma stbSignals_no_valueError (e : V3) (bd s0 : ℝ) (bvals : List ℝ) :
    ∀ (gs : List V3) (i : ℕ) (m : String),
      stbSignals e bd s0 bvals gs i ≠ .error (.valueError m)
  | [], _, _ => by simp [stbSignals]
  | g :: gs, i, m => by
      intro h
      rw [stbSignals] at h
      rcases hpb : bvals.get? i with _ | b
      · rw [pyGet_none hpb, error_bind] at h
        simp at h
      · rw [pyGet_ok_iff.mpr hpb, ok_bind] at h
        rcases hr : stbSignals e bd s0 bvals gs (i + 1) with er | rest
        · rw [hr, error_bind] at h
          injection h with h'
          exact stbSignals_no_valueError e bd s0 bvals gs (i + 1) m (by rw [hr, h'])
        · rw [hr, ok_bind] at h
          simp at h

/-- C2 — `single_tensor_btensor` raises `ValueError` (before computing any
signal: the range check is the first statement of the function) exactly when
`b_delta` lies outside the closed interval `[-0.5, 1]`; inside the interval,
endpoints included, no `ValueError` is raised. -/
theorem single_tensor_btensor_valueError_iff (gtab : GradientTable) (e : V3)
    (bd s0 : ℝ) :
    (∃ msg, single_tensor_btensor gtab e bd s0 = .error (.valueError msg)) ↔
      (1 < bd ∨ bd < -(1/2)) := by
  constructor
  · rintro ⟨msg, h⟩
    by_contra hc
    push_neg at hc
    rw [single_tensor_btensor, if_neg (by push_neg; exact ⟨hc.1, hc.2⟩)] at h
    exact stbSignals_no_valueError e bd s0 gtab.bvals gtab.bvecs 0 msg h
  · intro h
    refine ⟨bdeltaMsg, ?_⟩
    rw [single_tensor_btensor, if_pos (by tauto)]

lemma stbSignals_ok_get (e : V3) (bd s0 : ℝ) (bvals : List ℝ) :
    ∀ (gs : List V3) (i : ℕ) (S : List ℝ),
      stbSignals e bd s0 bvals gs i = .ok S →
      ∀ (k : ℕ), k < gs.length →
        ∃ g b, gs.get? k = some g ∧ bvals.get? (i + k) = some b ∧
          S.get? k = some (tensorSignal e bd s0 g b)
  | [], _, _ => by intro h k hk; simp at hk
  | g :: gs, i, S => by
      intro h k hk
      rw [stbSignals] at h
      rcases hpb : bvals.get? i with _ | b
      · rw [pyGet_none hpb, error_bind] at h
        simp at h
      · rw [pyGet_ok_iff.mpr hpb, ok_bind] at h
        rcases hr : stbSignals e bd s0 bvals gs (i + 1) with er | rest
        · rw [hr, error_bind] at h
          simp at h
        · rw [hr, ok_bind, pure_eq_ok] at h
          injection h with h'
          rcases k with _ | k
          · exact ⟨g, b, rfl, by simpa using hpb, by rw [← h']; rfl⟩
          · have hk' : k < gs.length := by simpa using hk
            obtain ⟨g', b', hg', hb', hS'⟩ :=
              stbSignals_ok_get e bd s0 bvals gs (i + 1) rest hr k hk'
            refine ⟨g', b', by simpa using hg', ?_, ?_⟩
            · rw [show i + (k + 1) = i + 1 + k by omega]; exact hb'
            · rw [← h']; simpa using hS'

/-- C7 — for `b_delta = 0` the simulated signal is direction-independent:
any two gradient directions carrying the same b-value `b` receive the same
signal, and both equal `S0 * exp(-b * D_iso)`. -/
theorem single_tensor_btensor_isotropic (gtab : GradientTable) (e : V3)
    (s0 : ℝ) (S : List ℝ)
    (hok : single_tensor_btensor gtab e 0 s0 = .ok S)
    (i j : ℕ) (b : ℝ)
    (hbi : gtab.bvals.get? i = some b) (hbj : gtab.bvals.get? j = some b)
    (hi : i < gtab.bvecs.length) (hj : j < gtab.bvecs.length) :
    S.get? i = some (s0 * Real.exp (-b * d_iso e)) ∧
      S.get? j = some (s0 * Real.exp (-b * d_iso e)) := by
  rw [single_tensor_btensor, if_neg (by norm_num)] at hok
  have key : ∀ k : ℕ, k < gtab.bvecs.length → gtab.bvals.get? k = some b →
      S.get? k = some (s0 * Real.exp (-b * d_iso e)) := by
    intro k hk hbk
    obtain ⟨g, b', hg, hb', hS⟩ := stbSignals_ok_get e 0 s0 gtab.bvals gtab.bvecs 0 S hok k hk
    rw [Nat.zero_add] at hb'
    rw [hbk] at hb'
    injection hb' with hb'
    rw [hS, ← hb']
    have harg : -b * d_iso e * (1 + 2 * 0 * d_delta e * legP2 (polarTheta g)) =
        -b * d_iso e := by ring
    rw [tensorSignal, harg]
  exact ⟨key i hi hbi, key j hj hbj⟩

/-- Closed instance of `single_tensor_btensor_isotropic`: two different
directions with the same b-value. -/
theorem single_tensor_btensor_isotropic_witness :
    (stbSignals (1, 2, 3) 0 1 [5, 5] [(1, 0, 0), (0, 0, 1)] 0 =
      .ok ((([((1 : ℝ), (0 : ℝ), (0 : ℝ)), (0, 0, 1)].zip [(5 : ℝ), 5]).map fun p =>
        tensorSignal (1, 2, 3) 0 1 p.1 p.2))) ∧
    ((([((1 : ℝ), (0 : ℝ), (0 : ℝ)), (0, 0, 1)].zip [(5 : ℝ), 5]).map fun p =>
        tensorSignal (1, 2, 3) 0 1 p.1 p.2).get? 0 =
      some (1 * Real.exp (-5 * d_iso (1, 2, 3))) ∧
     (([((1 : ℝ), (0 : ℝ), (0 : ℝ)), (0, 0, 1)].zip [(5 : ℝ), 5]).map fun p =>
        tensorSignal (1, 2, 3) 0 1 p.1 p.2).get? 1 =
      some (1 * Real.exp (-5 * d_iso (1, 2, 3)))) := by
  have hok : single_tensor_btensor ⟨[(1, 0, 0), (0, 0, 1)], [5, 5]⟩ (1, 2, 3) 0 1 =
      .ok ((([((1 : ℝ), (0 : ℝ), (0 : ℝ)), (0, 0, 1)].zip [(5 : ℝ), 5]).map fun p =>
        tensorSignal (1, 2, 3) 0 1 p.1 p.2)) := by
    rw [single_tensor_btensor, if_neg (by norm_num)]
    exact stbSignals_eq_map (1, 2, 3) 0 1 [5, 5] [(1, 0, 0), (0, 0, 1)] 0 (by simp)
  refine ⟨?_, single_tensor_btensor_isotropic ⟨[(1, 0, 0), (0, 0, 1)], [5, 5]⟩ (1, 2, 3) 1 _
    hok 0 1 5 rfl rfl (by simp) (by simp)⟩
  rw [single_tensor_btensor, if_neg (by norm_num)] at hok
  exact hok

/-- C5 — when the first b-value is at or above the tolerance, the `else`
branch of `multi_shell_fiber_response` is taken; its first statement
`warnings.warn(...)` references the `warnings` module, which the script
never imports, so Python raises `NameError` and the routine does not
proceed (the claim says it warns and completes — the code cannot). -/
theorem msfr_no_b0_nameError (sh_order : ℕ) (bvals : List ℝ)
    (wm_rf gm_rf csf_rf : List RFRow) (b_deltas : Option (List ℝ))
    (sphere : List V3) (tol : ℝ) (b0 : ℝ)
    (hb : bvals.get? 0 = some b0) (hge : tol ≤ b0) :
    multi_shell_fiber_response sh_order bvals wm_rf gm_rf csf_rf b_deltas sphere tol =
      .error (.nameError warningsName) := by
  rw [multi_shell_fiber_response, pyGet_ok_iff.mpr hb, ok_bind,
    if_neg (not_lt.mpr hge)]

/-- Closed instance of `msfr_no_b0_nameError`: a schedule whose first
b-value (100) is above the tolerance (20). -/
theorem msfr_no_b0_nameError_witness :
    multi_shell_fiber_response 8 [100] [] [] [] none [] 20 =
      .error (.nameError warningsName) :=
  msfr_no_b0_nameError 8 [100] [] [] [] none [] 20 100 rfl (by norm_num)

lemma shellRow_ok_inv (sh_order : ℕ) (sphere : List V3)
    (wm_rf gm_rf csf_rf : List RFRow) (bds : List ℝ) (i : ℕ) (b : ℝ)
    (row : List ℝ)
    (h : shellRow sh_order sphere wm_rf gm_rf csf_rf bds i b = .ok row) :
    ∃ wmi bd sig gmi csfi,
      wm_rf.get? i = some wmi ∧ bds.get? i = some bd ∧
      single_tensor_btensor (GradientTable.ofGradients (scaleSphere sphere b))
        wmi.evals bd wmi.s0 = .ok sig ∧
      gm_rf.get? i = some gmi ∧ csf_rf.get? i = some csfi ∧
      row = [csfi.s0 * Real.exp (-b * csfi.ev1) / shA,
             gmi.s0 * Real.exp (-b * gmi.ev1) / shA] ++
            lstsqCoeffs sh_order sphere sig := by
  rw [shellRow] at h
  rcases hw : pyGet wm_rf i with ew | wmi <;> rw [hw] at h
  · simp at h
  · rw [ok_bind] at h
    rcases hbd : pyGet bds i with ebd | bd <;> rw [hbd] at h
    · simp at h
    · rw [ok_bind] at h
      rcases hs : single_tensor_btensor (GradientTable.ofGradients (scaleSphere sphere b))
          wmi.evals bd wmi.s0 with es | sig <;> rw [hs] at h
      · simp at h
      · rw [ok_bind] at h
        rcases hg : pyGet gm_rf i with eg | gmi <;> rw [hg] at h
        · simp at h
        · rw [ok_bind] at h
          rcases hc : pyGet csf_rf i with ec | csfi <;> rw [hc] at h
          · simp at h
          · rw [ok_bind, pure_eq_ok] at h
            injection h with h'
            exact ⟨wmi, bd, sig, gmi, csfi, pyGet_ok_iff.mp hw, pyGet_ok_iff.mp hbd,
              hs, pyGet_ok_iff.mp hg, pyGet_ok_iff.mp hc, h'.symm⟩

lemma shellRows_ok_get (sh_order : ℕ) (sphere : List V3)
    (wm_rf gm_rf csf_rf : List RFRow) (bds : List ℝ) :
    ∀ (bs : List ℝ) (i : ℕ) (rows : List (List ℝ)),
      shellRows sh_order sphere wm_rf gm_rf csf_rf bds bs i = .ok rows →
      ∀ (k : ℕ) (b : ℝ), bs.get? k = some b →
        ∃ row, rows.get? k = some row ∧
          shellRow sh_order sphere wm_rf gm_rf csf_rf bds (i + k) b = .ok row
  | [], _, _ => by intro h k b hk; simp at hk
  | b' :: bs, i, rows => by
      intro h k b hk
      rw [shellRows] at h
      rcases hr : shellRow sh_order sphere wm_rf gm_rf csf_rf bds i b' with er | row <;>
        rw [hr] at h
      · simp at h
      · rw [ok_bind] at h
        rcases hrs : shellRows sh_order sphere wm_rf gm_rf csf_rf bds bs (i + 1) with
          ers | rest <;> rw [hrs] at h
        · simp at h
        · rw [ok_bind, pure_eq_ok] at h
          injection h with h'
          rcases k with _ | k
          · simp only [List.get?_cons_zero, Option.some.injEq] at hk
            subst hk
            exact ⟨row, by rw [← h']; rfl, by simpa using hr⟩
          · obtain ⟨row', hrow', hsr⟩ :=
              shellRows_ok_get sh_order sphere wm_rf gm_rf csf_rf bds bs (i + 1) rest hrs
                k b (by simpa using hk)
            refine ⟨row', by rw [← h']; simpa using hrow', ?_⟩
            rw [show i + (k + 1) = i + 1 + k by omega]
            exact hsr

lemma msfr_ok_inv (sh_order : ℕ) (bvals : List ℝ)
    (wm_rf gm_rf csf_rf : List RFRow) (b_deltas : Option (List ℝ))
    (sphere : List V3) (tol : ℝ) (r : MultiShellResponse)
    (hok : multi_shell_fiber_response sh_order bvals wm_rf gm_rf csf_rf b_deltas
      sphere tol = .ok r) :
    ∃ b0 wm0 sig0 gm0 csf0 rest,
      bvals.get? 0 = some b0 ∧ b0 < tol ∧
      wm_rf.get? 0 = some wm0 ∧
      single_tensor_btensor (GradientTable.ofGradients (scaleSphere sphere 0))
        wm0.evals 1 wm0.s0 = .ok sig0 ∧
      gm_rf.get? 0 = some gm0 ∧ csf_rf.get? 0 = some csf0 ∧
      shellRows sh_order sphere wm_rf gm_rf csf_rf
        (b_deltas.getD (List.replicate (bvals.length - 1) 1)) (bvals.drop 1) 0 =
        .ok rest ∧
      r = { response := ([csf0.s0 / shA, gm0.s0 / shA] ++
                         lstsqCoeffs sh_order sphere sig0) :: rest,
            sh_order := sh_order, bvals := bvals,
            S0 := [csf0.s0, gm0.s0, wm0.s0] } := by
  rw [multi_shell_fiber_response] at hok
  rcases h0 : pyGet bvals 0 with e0 | b0 <;> rw [h0] at hok
  · simp at hok
  · rw [ok_bind] at hok
    by_cases hlt : b0 < tol
    · rw [if_pos hlt] at hok
      rcases hw : pyGet wm_rf 0 with ew | wm0 <;> rw [hw] at hok
      · simp at hok
      · rw [ok_bind] at hok
        rcases hs : single_tensor_btensor (GradientTable.ofGradients (scaleSphere sphere 0))
            wm0.evals 1 wm0.s0 with es | sig0 <;> rw [hs] at hok
        · simp at hok
        · rw [ok_bind] at hok
          rcases hg : pyGet gm_rf 0 with eg | gm0 <;> rw [hg] at hok
          · simp at hok
          · rw [ok_bind] at hok
            rcases hc : pyGet csf_rf 0 with ec | csf0 <;> rw [hc] at hok
            · simp at hok
            · rw [ok_bind] at hok
              rcases hrs : shellRows sh_order sphere wm_rf gm_rf csf_rf
                  (b_deltas.getD (List.replicate (bvals.length - 1) 1))
                  (bvals.drop 1) 0 with ers | rest <;> rw [hrs] at hok
              · simp at hok
              · rw [ok_bind, pure_eq_ok] at hok
                injection hok with h'
                exact ⟨b0, wm0, sig0, gm0, csf0, rest, pyGet_ok_iff.mp h0, hlt,
                  pyGet_ok_iff.mp hw, hs, pyGet_ok_iff.mp hg, pyGet_ok_iff.mp hc,
                  rfl, h'.symm⟩
    · rw [if_neg hlt] at hok
      simp at hok

/-- The harmonic DC value is `sqrt(1 / (4 * pi))`, which is positive. -/
lemma shA_eq : shA = Real.sqrt (1 / (4 * Real.pi)) := by
  rw [shA, shDesc, legendreP]
  norm_num

lemma shA_pos : 0 < shA := by
  rw [shA_eq]
  have : (0 : ℝ) < 1 / (4 * Real.pi) := by positivity
  exact Real.sqrt_pos.mpr this

/-- C3 — whenever `multi_shell_fiber_response` returns a response model (in
particular the first b-value was below the tolerance, since the no-b0 branch
always raises), the b0 row (row 0) has gray-matter coefficient (position 1)
`gm_rf[0].S0 / A` and CSF coefficient (position 0) `csf_rf[0].S0 / A`, with
`A = sqrt(1/(4*pi))` the harmonic DC value; the b-value schedule and the
tolerance are arbitrary, so the b0 coefficients are independent of them. -/
theorem msfr_b0_row_gm_csf (sh_order : ℕ) (bvals : List ℝ)
    (wm_rf gm_rf csf_rf : List RFRow) (b_deltas : Option (List ℝ))
    (sphere : List V3) (tol : ℝ) (r : MultiShellResponse)
    (hok : multi_shell_fiber_response sh_order bvals wm_rf gm_rf csf_rf b_deltas
      sphere tol = .ok r) :
    ∃ gm0 csf0 row0,
      gm_rf.get? 0 = some gm0 ∧ csf_rf.get? 0 = some csf0 ∧
      r.response.get? 0 = some row0 ∧
      row0.get? 1 = some (gm0.s0 / shA) ∧
      row0.get? 0 = some (csf0.s0 / shA) ∧
      shA = Real.sqrt (1 / (4 * Real.pi)) := by
  obtain ⟨b0, wm0, sig0, gm0, csf0, rest, _, _, _, _, hg, hc, _, hr⟩ :=
    msfr_ok_inv sh_order bvals wm_rf gm_rf csf_rf b_deltas sphere tol r hok
  exact ⟨gm0, csf0, [csf0.s0 / shA, gm0.s0 / shA] ++ lstsqCoeffs sh_order sphere sig0,
    hg, hc, by rw [hr]; rfl, rfl, rfl, shA_eq⟩

lemma msfr_concrete_c3 :
    multi_shell_fiber_response 0 [0] [⟨0, 0, 0, 1⟩] [⟨0, 0, 0, 1⟩] [⟨0, 0, 0, 1⟩]
      none [] 20 =
    .ok { response := [[(1 : ℝ) / shA, 1 / shA] ++ lstsqCoeffs 0 [] []],
          sh_order := 0, bvals := [0], S0 := [1, 1, 1] } := by
  rw [multi_shell_fiber_response]
  norm_num [pyGet, single_tensor_btensor, stbSignals, shellRows, scaleSphere,
    GradientTable.ofGradients, RFRow.evals]

/-- Closed instance of `msfr_b0_row_gm_csf` at a concrete successful call. -/
theorem msfr_b0_row_gm_csf_witness :
    ∃ gm0 csf0 row0,
      ([(⟨0, 0, 0, 1⟩ : RFRow)]).get? 0 = some gm0 ∧
      ([(⟨0, 0, 0, 1⟩ : RFRow)]).get? 0 = some csf0 ∧
      ({ response := [[(1 : ℝ) / shA, 1 / shA] ++ lstsqCoeffs 0 [] []],
         sh_order := 0, bvals := [0], S0 := [1, 1, 1] } :
        MultiShellResponse).response.get? 0 = some row0 ∧
      row0.get? 1 = some (gm0.s0 / shA) ∧
      row0.get? 0 = some (csf0.s0 / shA) ∧
      shA = Real.sqrt (1 / (4 * Real.pi)) :=
  msfr_b0_row_gm_csf 0 [0] [⟨0, 0, 0, 1⟩] [⟨0, 0, 0, 1⟩] [⟨0, 0, 0, 1⟩] none [] 20 _
    msfr_concrete_c3

/-- C4 (amended) — for every non-b0 shell, at index `k ≥ 1` of the
schedule, the response row `k` is built from row `k - 1` of the tissue
response arrays (the loop enumerates `bvals[1:]` from 0, so the shell at
schedule index `k` reads array row `k - 1`, not row `k`): the WM
coefficients are the least-squares fit against the harmonic basis of the
tensor signal simulated at that shell's b-value with `b_deltas[k-1]` and
`wm_rf[k-1]`, and the GM and CSF coefficients are
`S0 * exp(-b * ev1) / A` taken from `gm_rf[k-1]` and `csf_rf[k-1]`. -/
theorem msfr_shell_rows_shifted (sh_order : ℕ) (bvals : List ℝ)
    (wm_rf gm_rf csf_rf : List RFRow) (b_deltas : Option (List ℝ))
    (sphere : List V3) (tol : ℝ) (r : MultiShellResponse) (k : ℕ) (b : ℝ)
    (hok : multi_shell_fiber_response sh_order bvals wm_rf gm_rf csf_rf b_deltas
      sphere tol = .ok r)
    (hk : 1 ≤ k) (hb : bvals.get? k = some b) :
    ∃ wmk bd sig gmk csfk,
      wm_rf.get? (k - 1) = some wmk ∧
      (b_deltas.getD (List.replicate (bvals.length - 1) 1)).get? (k - 1) = some bd ∧
      single_tensor_btensor (GradientTable.ofGradients (scaleSphere sphere b))
        wmk.evals bd wmk.s0 = .ok sig ∧
      gm_rf.get? (k - 1) = some gmk ∧ csf_rf.get? (k - 1) = some csfk ∧
      r.response.get? k =
        some ([csfk.s0 * Real.exp (-b * csfk.ev1) / shA,
               gmk.s0 * Real.exp (-b * gmk.ev1) / shA] ++
              lstsqCoeffs sh_order sphere sig) := by
  obtain ⟨b0, wm0, sig0, gm0, csf0, rest, h0, hlt, hw, hs, hg, hc, hrs, hr⟩ :=
    msfr_ok_inv sh_order bvals wm_rf gm_rf csf_rf b_deltas sphere tol r hok
  have hb' : (bvals.drop 1).get? (k - 1) = some b := by
    rw [List.get?_eq_getElem?, List.getElem?_drop, show 1 + (k - 1) = k by omega,
      ← List.get?_eq_getElem?]
    exact hb
  obtain ⟨row, hrow, hsr⟩ := shellRows_ok_get sh_order sphere wm_rf gm_rf csf_rf
    (b_deltas.getD (List.replicate (bvals.length - 1) 1)) (bvals.drop 1) 0 rest hrs
    (k - 1) b hb'
  rw [Nat.zero_add] at hsr
  obtain ⟨wmk, bd, sig, gmk, csfk, hw', hbd', hs', hg', hc', hrowEq⟩ :=
    shellRow_ok_inv sh_order sphere wm_rf gm_rf csf_rf
      (b_deltas.getD (List.replicate (bvals.length - 1) 1)) (k - 1) b row hsr
  refine ⟨wmk, bd, sig, gmk, csfk, hw', hbd', hs', hg', hc', ?_⟩
  rw [hr]
  show (([csf0.s0 / shA, gm0.s0 / shA] ++ lstsqCoeffs sh_order sphere sig0) ::
    rest).get? k = _
  rw [show k = (k - 1) + 1 by omega, List.get?_cons_succ, hrow, hrowEq]

lemma msfr_concrete_c4 :
    multi_shell_fiber_response 0 [0, 1000] [⟨0, 0, 0, 1⟩, ⟨0, 0, 0, 1⟩]
      [⟨0, 0, 0, 2⟩, ⟨0, 0, 0, 3⟩] [⟨0, 0, 0, 2⟩, ⟨0, 0, 0, 3⟩] none [] 20 =
    .ok { response := [[(2 : ℝ) / shA, 2 / shA] ++ lstsqCoeffs 0 [] [],
                       [(2 : ℝ) / shA, 2 / shA] ++ lstsqCoeffs 0 [] []],
          sh_order := 0, bvals := [0, 1000], S0 := [2, 2, 1] } := by
  rw [multi_shell_fiber_response]
  norm_num [pyGet, single_tensor_btensor, stbSignals, shellRows, shellRow,
    scaleSphere, GradientTable.ofGradients, RFRow.evals]

/-- C4 as stated is false: with schedule `[0, 1000]` and response arrays
whose row 1 differs from row 0, the non-b0 shell at schedule index `k = 1`
gets GM coefficient `gm_rf[0].S0 / A = 2 / A` (row 0 is used, and
`exp(-1000 * 0) = 1`), whereas the claim (row `k = 1`, i.e. `gm_rf[1]`)
predicts `3 / A`, and `2 / A ≠ 3 / A`. -/
theorem msfr_row_index_cex :
    (multi_shell_fiber_response 0 [0, 1000] [⟨0, 0, 0, 1⟩, ⟨0, 0, 0, 1⟩]
        [⟨0, 0, 0, 2⟩, ⟨0, 0, 0, 3⟩] [⟨0, 0, 0, 2⟩, ⟨0, 0, 0, 3⟩] none [] 20 =
      .ok { response := [[(2 : ℝ) / shA, 2 / shA] ++ lstsqCoeffs 0 [] [],
                         [(2 : ℝ) / shA, 2 / shA] ++ lstsqCoeffs 0 [] []],
            sh_order := 0, bvals := [0, 1000], S0 := [2, 2, 1] }) ∧
    (([(2 : ℝ) / shA, 2 / shA] ++ lstsqCoeffs 0 [] []).get? 1 = some (2 / shA)) ∧
    ((⟨0, 0, 0, 3⟩ : RFRow).s0 * Real.exp (-1000 * (⟨0, 0, 0, 3⟩ : RFRow).ev1) / shA
      = 3 / shA) ∧
    (2 : ℝ) / shA ≠ 3 / shA := by
  refine ⟨msfr_concrete_c4, rfl, by norm_num, ?_⟩
  intro h
  have hne : shA ≠ 0 := ne_of_gt shA_pos
  field_simp at h
  exact absurd h (by norm_num)

/-- Closed instance of `msfr_shell_rows_shifted` at a concrete call with
`k = 1`. -/
theorem msfr_shell_rows_shifted_witness :
    ∃ wmk bd sig gmk csfk,
      ([(⟨0, 0, 0, 1⟩ : RFRow), ⟨0, 0, 0, 1⟩]).get? 0 = some wmk ∧
      ((none : Option (List ℝ)).getD
        (List.replicate (([(0 : ℝ), 1000]).length - 1) 1)).get? 0 = some bd ∧
      single_tensor_btensor (GradientTable.ofGradients (scaleSphere [] 1000))
        wmk.evals bd wmk.s0 = .ok sig ∧
      ([(⟨0, 0, 0, 2⟩ : RFRow), ⟨0, 0, 0, 3⟩]).get? 0 = some gmk ∧
      ([(⟨0, 0, 0, 2⟩ : RFRow), ⟨0, 0, 0, 3⟩]).get? 0 = some csfk ∧
      ({ response := [[(2 : ℝ) / shA, 2 / shA] ++ lstsqCoeffs 0 [] [],
                      [(2 : ℝ) / shA, 2 / shA] ++ lstsqCoeffs 0 [] []],
         sh_order := 0, bvals := [0, 1000], S0 := [2, 2, 1] } :
        MultiShellResponse).response.get? 1 =
        some ([csfk.s0 * Real.exp (-1000 * csfk.ev1) / shA,
               gmk.s0 * Real.exp (-1000 * gmk.ev1) / shA] ++
              lstsqCoeffs 0 [] sig) :=
  msfr_shell_rows_shifted 0 [0, 1000] [⟨0, 0, 0, 1⟩, ⟨0, 0, 0, 1⟩]
    [⟨0, 0, 0, 2⟩, ⟨0, 0, 0, 3⟩] [⟨0, 0, 0, 2⟩, ⟨0, 0, 0, 3⟩] none [] 20 _ 1 1000
    msfr_concrete_c4 (by norm_num) rfl

lemma stb_ofGradients_ok (grads : List V3) (e : V3) (bd s0 : ℝ)
    (h1 : -(1/2) ≤ bd) (h2 : bd ≤ 1) :
    single_tensor_btensor (GradientTable.ofGradients grads) e bd s0 =
      .ok (((GradientTable.ofGradients grads).bvecs.zip
        (GradientTable.ofGradients grads).bvals).map fun p =>
          tensorSignal e bd s0 p.1 p.2) := by
  rw [single_tensor_btensor, if_neg (by push_neg; exact ⟨h2, h1⟩)]
  have hlen : (GradientTable.ofGradients grads).bvecs.length ≤
      (GradientTable.ofGradients grads).bvals.length := by
    simp [GradientTable.ofGradients]
  rw [stbSignals_eq_map e bd s0 _ _ 0 (by omega)]
  simp

/-- C6 as stated is false: with the b0 schedule `[0, 1000, 2000]` (two
non-b0 shells) and single-row `(1, 4)` response arrays, the call does not
succeed — it raises `IndexError` (at `wm_rf[1]` in the second loop
iteration); no broadcast of the single row takes place. -/
theorem msfr_single_row_cex :
    multi_shell_fiber_response 0 [0, 1000, 2000] [⟨0, 0, 0, 1⟩] [⟨0, 0, 0, 1⟩]
      [⟨0, 0, 0, 1⟩] none [] 20 = .error .indexError ∧
    ∀ r, multi_shell_fiber_response 0 [0, 1000, 2000] [⟨0, 0, 0, 1⟩] [⟨0, 0, 0, 1⟩]
      [⟨0, 0, 0, 1⟩] none [] 20 ≠ .ok r := by
  refine ⟨?_, fun r h => ?_⟩
  · rw [multi_shell_fiber_response]
    norm_num [pyGet, single_tensor_btensor, stbSignals, shellRows, shellRow,
      scaleSphere, GradientTable.ofGradients, RFRow.evals]
  · rw [multi_shell_fiber_response] at h
    norm_num [pyGet, single_tensor_btensor, stbSignals, shellRows, shellRow,
      scaleSphere, GradientTable.ofGradients, RFRow.evals] at h
    exact Except.noConfusion h

/-- C6 (amended) — for every b0 schedule with at least two non-b0 shells
(length at least 3, first b-value below the tolerance) and single-row
`(1, 4)` tissue response arrays with default b-deltas,
`multi_shell_fiber_response` raises `IndexError` (the single row serves the
b0 shell and the first non-b0 shell, then `wm_rf[1]` is out of range: the
row is not broadcast to the remaining shells). -/
theorem msfr_single_row_indexError (sh_order : ℕ) (bvals : List ℝ)
    (w g c : RFRow) (sphere : List V3) (tol : ℝ) (b0 : ℝ)
    (hb : bvals.get? 0 = some b0) (h0 : b0 < tol) (hlen : 3 ≤ bvals.length) :
    multi_shell_fiber_response sh_order bvals [w] [g] [c] none sphere tol =
      .error .indexError := by
  rcases bvals with _ | ⟨x, _ | ⟨y, _ | ⟨z, rest⟩⟩⟩
  · simp at hlen
  · simp at hlen
  · simp at hlen
  · have hx : x = b0 := by simpa using hb
    subst hx
    rw [multi_shell_fiber_response, pyGet_ok_iff.mpr (by rfl), ok_bind, if_pos h0,
      pyGet_ok_iff.mpr (by rfl : ([w].get? 0 = some w)), ok_bind,
      stb_ofGradients_ok _ _ 1 _ (by norm_num) (by norm_num), ok_bind,
      pyGet_ok_iff.mpr (by rfl : ([g].get? 0 = some g)), ok_bind,
      pyGet_ok_iff.mpr (by rfl : ([c].get? 0 = some c)), ok_bind]
    have hbds : (List.replicate ((x :: y :: z :: rest).length - 1) (1 : ℝ)).get? 0 =
        some 1 := by
      simp [List.replicate_succ]
    have hrows : shellRows sh_order sphere [w] [g] [c]
        (List.replicate ((x :: y :: z :: rest).length - 1) 1)
        ((x :: y :: z :: rest).drop 1) 0 = .error .indexError := by
      show shellRows sh_order sphere [w] [g] [c] _ (y :: z :: rest) 0 = _
      rw [shellRows, shellRow, pyGet_ok_iff.mpr (by rfl : ([w].get? 0 = some w)),
        ok_bind, pyGet_ok_iff.mpr hbds, ok_bind,
        stb_ofGradients_ok _ _ 1 _ (by norm_num) (by norm_num), ok_bind,
        pyGet_ok_iff.mpr (by rfl : ([g].get? 0 = some g)), ok_bind,
        pyGet_ok_iff.mpr (by rfl : ([c].get? 0 = some c)), ok_bind, pure_eq_ok,
        ok_bind, shellRows, shellRow, pyGet_none (by rfl : ([w].get? 1 = none)),
        error_bind, error_bind, error_bind]
    simp only [Option.getD_none]
    rw [hrows, error_bind]

/-- Closed instance of `msfr_single_row_indexError`. -/
theorem msfr_single_row_indexError_witness :
    multi_shell_fiber_response 2 [0, 500, 700] [⟨1, 1, 1, 1⟩] [⟨1, 1, 1, 1⟩]
      [⟨1, 1, 1, 1⟩] none [] 20 = .error .indexError :=
  msfr_single_row_indexError 2 [0, 500, 700] ⟨1, 1, 1, 1⟩ ⟨1, 1, 1, 1⟩ ⟨1, 1, 1, 1⟩
    [] 20 0 rfl (by norm_num) (by norm_num)

/-- C8 — in the driver, each of the three loaded tissue response arrays is
independently rejected with its own descriptive `ValueError` when its second
dimension (after the 1-D reshape) is not 4, and the rejection happens before
the continuation standing for `multi_shell_fiber_response` can run (the
result does not depend on `fit` at all). -/
theorem frf_bad_columns_rejected {α : Type} (wm gm csf : FrfArr)
    (fit : FrfArr × FrfArr × FrfArr → Except PyErr α) :
    ((frfReshape wm).shape.get? 1 ≠ some 4 →
      frfStage wm gm csf fit = .error (.valueError wmMsg)) ∧
    ((frfReshape wm).shape.get? 1 = some 4 → (frfReshape gm).shape.get? 1 ≠ some 4 →
      frfStage wm gm csf fit = .error (.valueError gmMsg)) ∧
    ((frfReshape wm).shape.get? 1 = some 4 → (frfReshape gm).shape.get? 1 = some 4 →
      (frfReshape csf).shape.get? 1 ≠ some 4 →
      frfStage wm gm csf fit = .error (.valueError csfMsg)) := by
  have hw : ∀ a : FrfArr, ∃ d, (frfReshape a).shape.get? 1 = some d := by
    intro a
    rcases a with v | rows <;> exact ⟨_, rfl⟩
  obtain ⟨dw, hdw⟩ := hw wm
  obtain ⟨dg, hdg⟩ := hw gm
  obtain ⟨dc, hdc⟩ := hw csf
  refine ⟨fun hne => ?_, fun heq hne => ?_, fun heqw heqg hne => ?_⟩
  · have : dw ≠ 4 := fun h => hne (h ▸ hdw)
    rw [frfStage, validate_frfs, pyGet_ok_iff.mpr hdw, ok_bind, if_pos this,
      throw_eq_error, error_bind]
  · have hw4 : dw = 4 := by rw [hdw] at heq; injection heq
    have : dg ≠ 4 := fun h => hne (h ▸ hdg)
    rw [frfStage, validate_frfs, pyGet_ok_iff.mpr hdw, ok_bind,
      if_neg (by rw [hw4]; simp), pyGet_ok_iff.mpr hdg, ok_bind, if_pos this,
      throw_eq_error, error_bind]
  · have hw4 : dw = 4 := by rw [hdw] at heqw; injection heqw
    have hg4 : dg = 4 := by rw [hdg] at heqg; injection heqg
    have : dc ≠ 4 := fun h => hne (h ▸ hdc)
    rw [frfStage, validate_frfs, pyGet_ok_iff.mpr hdw, ok_bind,
      if_neg (by rw [hw4]; simp), pyGet_ok_iff.mpr hdg, ok_bind,
      if_neg (by rw [hg4]; simp), pyGet_ok_iff.mpr hdc, ok_bind, if_pos this,
      throw_eq_error, error_bind]

/-- Closed instance of `frf_bad_columns_rejected`: a 3-column WM response
file is rejected with the WM format error, whatever the continuation. -/
theorem frf_bad_columns_rejected_witness :
    frfStage (.two [[1, 2, 3]]) (.two [[1, 2, 3, 4]]) (.two [[1, 2, 3, 4]])
      (fun _ => Except.ok (0 : ℕ)) = .error (.valueError wmMsg) :=
  (frf_bad_columns_rejected (.two [[1, 2, 3]]) (.two [[1, 2, 3, 4]])
    (.two [[1, 2, 3, 4]]) (fun _ => Except.ok (0 : ℕ))).1 (by simp [frfReshape, FrfArr.shape])

/-- C9 — a 1-D (single-row) loaded response array is reshaped to the 2-D
`(1, n)` array before the column check is evaluated, so a valid 4-element
single-row response file passes the validation of all three tissues. -/
theorem frf_single_row_reshape (v : List ℝ) (hv : v.length = 4) :
    frfReshape (.one v) = .two [v] ∧
    (frfReshape (.one v)).shape = [1, 4] ∧
    validate_frfs (.one v) (.one v) (.one v) = .ok (.two [v], .two [v], .two [v]) := by
  refine ⟨rfl, by simp [frfReshape, FrfArr.shape, hv], ?_⟩
  rw [validate_frfs]
  have h1 : (frfReshape (.one v)).shape.get? 1 = some 4 := by
    simp [frfReshape, FrfArr.shape, hv]
  rw [pyGet_ok_iff.mpr h1]
  simp [frfReshape]

/-- Closed instance of `frf_single_row_reshape`. -/
theorem frf_single_row_reshape_witness :
    frfReshape (.one [1, 2, 3, 4]) = .two [[1, 2, 3, 4]] ∧
    (frfReshape (.one [1, 2, 3, 4])).shape = [1, 4] ∧
    validate_frfs (.one [1, 2, 3, 4]) (.one [1, 2, 3, 4]) (.one [1, 2, 3, 4]) =
      .ok (.two [[1, 2, 3, 4]], .two [[1, 2, 3, 4]], .two [[1, 2, 3, 4]]) :=
  frf_single_row_reshape [1, 2, 3, 4] (by simp)

lemma Heap.modifyRow_mem_ne (σ : Heap) (id i : ℕ) (f : List ℝ → List ℝ) (a : ℕ)
    (h : a ≠ id) : (σ.modifyRow id i f).mem a = σ.mem a := by
  unfold Heap.modifyRow
  split
  · exact Function.update_noteq h _ _
  · rfl

lemma Heap.writeTailOfRow_mem_ne (σ : Heap) (id i k : ℕ) (vals : List ℝ) (a : ℕ)
    (h : a ≠ id) : (σ.writeTailOfRow id i k vals).mem a = σ.mem a :=
  Heap.modifyRow_mem_ne σ id i _ a h

lemma Heap.writeCell_mem_ne (σ : Heap) (id i j : ℕ) (x : ℝ) (a : ℕ)
    (h : a ≠ id) : (σ.writeCell id i j x).mem a = σ.mem a :=
  Heap.modifyRow_mem_ne σ id i _ a h

lemma msfrHeapLoop_frame (sh_order : ℕ) (sphere : List V3)
    (wm gm csf : List RFRow) (bds : List ℝ) (respId : ℕ) :
    ∀ (bs : List ℝ) (i : ℕ) (σ : Heap) (a : ℕ), a ≠ respId →
      (msfrHeapLoop sh_order sphere wm gm csf bds respId bs i σ).1.mem a = σ.mem a
  | [], _, _ => fun _ _ => rfl
  | b :: bs, i, σ => by
      intro a ha
      rw [msfrHeapLoop]
      split
      · rfl
      split
      · rfl
      split
      · rfl
      dsimp only
      split
      · exact Heap.writeTailOfRow_mem_ne σ respId (i + 1) 2 _ a ha
      split
      · rw [Heap.writeCell_mem_ne _ respId _ _ _ a ha,
          Heap.writeTailOfRow_mem_ne σ respId (i + 1) 2 _ a ha]
      · rw [msfrHeapLoop_frame sh_order sphere wm gm csf bds respId bs (i + 1) _ a ha,
          Heap.writeCell_mem_ne _ respId _ _ _ a ha,
          Heap.writeCell_mem_ne _ respId _ _ _ a ha,
          Heap.writeTailOfRow_mem_ne σ respId (i + 1) 2 _ a ha]

lemma msfrHeapMain_frame (sh_order : ℕ) (sphere : List V3) (tol : ℝ)
    (bvals : List ℝ) (wm gm csf : List RFRow) (bds : List ℝ)
    (respId bvalsLocal : ℕ) (σ2 : Heap) (a : ℕ) (ha : a ≠ respId) :
    (msfrHeapMain sh_order sphere tol bvals wm gm csf bds respId bvalsLocal
      σ2).1.mem a = σ2.mem a := by
  rw [msfrHeapMain]
  split
  · rfl
  split
  · split
    · rfl
    split
    · rfl
    dsimp only
    split
    · exact Heap.writeTailOfRow_mem_ne σ2 respId 0 2 _ a ha
    split
    · rw [Heap.writeCell_mem_ne _ respId _ _ _ a ha,
        Heap.writeTailOfRow_mem_ne σ2 respId 0 2 _ a ha]
    · rw [wrapLoop_fst,
        msfrHeapLoop_frame sh_order sphere wm gm csf bds respId (bvals.drop 1) 0 _ a ha,
        Heap.writeCell_mem_ne _ respId _ _ _ a ha,
        Heap.writeCell_mem_ne _ respId _ _ _ a ha,
        Heap.writeTailOfRow_mem_ne σ2 respId 0 2 _ a ha]
  · rfl

lemma msfrHeapMain_ok_ids (sh_order : ℕ) (sphere : List V3) (tol : ℝ)
    (bvals : List ℝ) (wm gm csf : List RFRow) (bds : List ℝ)
    (respId bvalsLocal : ℕ) (σ2 : Heap) (rId bvId : ℕ) (s0s : List ℝ)
    (h : (msfrHeapMain sh_order sphere tol bvals wm gm csf bds respId bvalsLocal
      σ2).2 = .ok (rId, bvId, s0s)) : rId = respId ∧ bvId = bvalsLocal := by
  rw [msfrHeapMain] at h
  split at h
  · exact Except.noConfusion h
  split at h
  · split at h
    · exact Except.noConfusion h
    split at h
    · exact Except.noConfusion h
    dsimp only at h
    split at h
    · exact Except.noConfusion h
    split at h
    · exact Except.noConfusion h
    · have := wrapLoop_ok_inv _ _ _ h
      injection this with h1 h2
      injection h2 with h2 _
      exact ⟨h1, h2⟩
  · exact Except.noConfusion h

/-- C10 — `multi_shell_fiber_response` never mutates its array arguments:
in the heap embedding, every array allocated before the call (every identity
below `σ0.next`, which covers the caller's `bvals`, `wm_rf`, `gm_rf`,
`csf_rf` and `b_deltas` arrays) has unchanged contents after the call,
whether it succeeds or raises; and on success the response model is built in
freshly allocated arrays: the returned response array is the second and the
`bvals` copy the first allocation of the call, both distinct from every
argument array. -/
theorem msfr_frame (sh_order : ℕ) (sphere : List V3) (tol : ℝ)
    (bvalsId wmId gmId csfId : ℕ) (bdsId : Option ℕ) (σ0 : Heap)
    (hbv : bvalsId < σ0.next) (hwm : wmId < σ0.next) (hgm : gmId < σ0.next)
    (hcs : csfId < σ0.next) :
    (∀ a, a < σ0.next →
      (msfrHeap sh_order sphere tol bvalsId wmId gmId csfId bdsId σ0).1.mem a =
        σ0.mem a) ∧
    (∀ rId bvId s0s,
      (msfrHeap sh_order sphere tol bvalsId wmId gmId csfId bdsId σ0).2 =
        .ok (rId, bvId, s0s) →
      rId = σ0.next + 1 ∧ bvId = σ0.next ∧
      rId ≠ bvalsId ∧ rId ≠ wmId ∧ rId ≠ gmId ∧ rId ≠ csfId ∧
      bvId ≠ bvalsId ∧ bvId ≠ wmId ∧ bvId ≠ gmId ∧ bvId ≠ csfId) := by
  constructor
  · intro a haN
    unfold msfrHeap
    simp only [Heap.alloc]
    rw [msfrHeapMain_frame _ _ _ _ _ _ _ _ _ _ _ a (by omega)]
    show (Function.update (Function.update σ0.mem σ0.next _) (σ0.next + 1) _) a =
      σ0.mem a
    rw [Function.update_noteq (by omega), Function.update_noteq (by omega)]
  · intro rId bvId s0s h
    unfold msfrHeap at h
    simp only [Heap.alloc] at h
    obtain ⟨h1, h2⟩ := msfrHeapMain_ok_ids _ _ _ _ _ _ _ _ _ _ _ _ _ _ h
    have hr : rId = σ0.next + 1 := h1
    have hb : bvId = σ0.next := h2
    subst hr hb
    exact ⟨rfl, rfl, by omega, by omega, by omega, by omega,
      by omega, by omega, by omega, by omega⟩

/-- A concrete four-array heap (bvals at 0, the three response arrays at
1, 2, 3) used to exercise `msfr_frame`. -/
def heapC : Heap where
  mem a := if a = 0 then some (.vec [0])
    else if a ≤ 3 then some (.mat [[0, 0, 0, 1]]) else none
  next := 4

lemma msfrHeap_concrete :
    (msfrHeap 0 [] 20 0 1 2 3 none heapC).2 = .ok (5, 4, [1, 1, 1]) := by
  rw [msfrHeap, msfrHeapMain]
  norm_num [Heap.alloc, Heap.readVec, Heap.readMat, toRFRows, heapC,
    Function.update, pyGet, single_tensor_btensor, stbSignals, scaleSphere,
    GradientTable.ofGradients, RFRow.evals, msfrHeapLoop, wrapLoop]

/-- Closed instance of `msfr_frame`: a successful concrete call leaves the
argument array at identity 1 unchanged, and the fresh identities 5 (the
response array) and 4 (the bvals copy) are distinct from all four argument
arrays. -/
theorem msfr_frame_witness :
    ((msfrHeap 0 [] 20 0 1 2 3 none heapC).1.mem 1 = heapC.mem 1) ∧
    ((5 : ℕ) = heapC.next + 1 ∧ (4 : ℕ) = heapC.next ∧
     (5 : ℕ) ≠ 0 ∧ (5 : ℕ) ≠ 1 ∧ (5 : ℕ) ≠ 2 ∧ (5 : ℕ) ≠ 3 ∧
     (4 : ℕ) ≠ 0 ∧ (4 : ℕ) ≠ 1 ∧ (4 : ℕ) ≠ 2 ∧ (4 : ℕ) ≠ 3) := by
  have h := msfr_frame 0 [] 20 0 1 2 3 none heapC (by norm_num [heapC])
    (by norm_num [heapC]) (by norm_num [heapC]) (by norm_num [heapC])
  exact ⟨h.1 1 (by norm_num [heapC]), h.2 5 4 [1, 1, 1] msfrHeap_concrete⟩

end Memsmt
